import Mathlib

/-!
Shallow embedding of the durable-capture-then-reliable-upload pipeline of the
video recorder spike:

* `src/db.js` — the IndexedDB-backed Local Store (`saveVideo`, `getVideos`,
  `deleteVideo`, `updateVideo`), modelled as a pure association list of `Video`
  records keyed by `id` (IndexedDB `put`/`get`/`delete` on a `keyPath: 'id'`
  object store).
* `src/cloudinary.js` — validation (`validateVideo`), transient-error
  classification (`isRetryableError`), byte formatting (`formatBytes`) and the
  retrying upload routine (`uploadToCloudinary`).  The network transport
  (`uploadWithProgress`) is an external effect and is modelled as an
  environment function from the attempt number to its outcome; every run
  additionally produces a trace of the observable steps (`Ev`) so that
  ordering and "never invoked" properties can be stated.
* `src/App.jsx` — the recorder finalization handler (`mediaRecorder.onstop`)
  and the user-triggered `uploadVideo` flow, modelled as pure state
  transformers over the store that also emit an event trace.
-/

namespace VideoVault

/-- A JS `Blob`: the observable fields used by the code are its byte `size`
and declared MIME `type`. -/
structure Blob where
  size : Nat
  type : String
deriving DecidableEq, Repr

/-- A persisted record of the `videos` object store (`db.js` lines 27-32):
`{ id, blob, createdAt, uploaded }`. -/
structure Video where
  id : String
  blob : Blob
  createdAt : Nat
  uploaded : Bool
deriving DecidableEq, Repr

/-- The `videos` object store: a list of records keyed by `id`
(IndexedDB `createObjectStore(STORE_NAME, { keyPath: 'id' })`). -/
abbrev Store := List Video

/-- IndexedDB `db.get(STORE_NAME, id)`: the record whose key equals `id`
(keys are unique in the object store). -/
def dbGet : Store → String → Option Video
  | [], _ => none
  | r :: rest, id => if r.id == id then some r else dbGet rest id

/-- IndexedDB `db.put(STORE_NAME, v)`: fully replace the record with the same
key, or insert when the key is absent. -/
def dbPut : Store → Video → Store
  | [], v => [v]
  | r :: rest, v => if r.id == v.id then v :: rest else r :: dbPut rest v

/-- Id generation of `saveVideo` (`db.js` line 25):
``video-${Date.now()}``. -/
def genId (now : Nat) : String :=
  "video-" ++ toString now

/-- `saveVideo(blob)` (`db.js` lines 23-36): builds the record with
`uploaded: false`, `put`s it, returns the id.  `Date.now()` is the `now`
input. -/
def saveVideo (st : Store) (blob : Blob) (now : Nat) : Store × String :=
  let id := genId now
  (dbPut st { id := id, blob := blob, createdAt := now, uploaded := false }, id)

/-- `getVideos()` (`db.js` lines 42-45): `getAll` of the store. -/
def getVideos (st : Store) : List Video :=
  st

/-- `deleteVideo(id)` (`db.js` lines 51-54): removes the record with the
given key (no-op when absent). -/
def deleteVideo : Store → String → Store
  | [], _ => []
  | r :: rest, id => if r.id == id then deleteVideo rest id else r :: deleteVideo rest id

/-- `updateVideo(id, uploaded)` (`db.js` lines 61-68): `get` the record; if it
exists, set `uploaded` and `put` it back; otherwise do nothing. -/
def updateVideo (st : Store) (id : String) (uploaded : Bool) : Store :=
  match dbGet st id with
  | none => st
  | some video => dbPut st { video with uploaded := uploaded }

/-! ## Constants of `cloudinary.js` (lines 3-6) -/

def MAX_FILE_SIZE : Nat := 100 * 1024 * 1024

def UPLOAD_TIMEOUT : Nat := 5 * 60 * 1000

def MAX_RETRIES : Nat := 3

def RETRY_DELAY : Nat := 2000

/-! ## `formatBytes` (`cloudinary.js` lines 162-171)

JS computes `i = floor(log bytes / log 1024)` and renders
`(bytes / 1024^i).toFixed(2)` through `parseFloat` (which strips trailing
zeros).  The model uses exact natural arithmetic: `Nat.log 1024` for the
exponent and round-half-up rational rendering for the two decimals.  JS binary
floating point can differ from the exact value in the last printed digit at
rounding boundaries; no claim in this development depends on the digits, only
on the shape of the resulting message. -/

/-- Render `scaled / 100` with up to two decimals, trailing zeros stripped
(the composition `parseFloat(x.toFixed(2))`). -/
def renderHundredths (scaled : Nat) : String :=
  let intPart := scaled / 100
  let frac := scaled % 100
  if frac = 0 then toString intPart
  else if frac % 10 = 0 then toString intPart ++ "." ++ toString (frac / 10)
  else if frac < 10 then toString intPart ++ ".0" ++ toString frac
  else toString intPart ++ "." ++ toString frac

/-- `Math.floor(Math.log(bytes) / Math.log(1024))`, capped at `4`: the `sizes`
array only has entries up to index `3` (`GB`), so every exponent `≥ 4` selects
the out-of-bounds `undefined` unit and the cap is observationally irrelevant to
the message shape. -/
def sizeExp (n : Nat) : Nat :=
  if n < 1024 then 0
  else if n < 1024 ^ 2 then 1
  else if n < 1024 ^ 3 then 2
  else if n < 1024 ^ 4 then 3
  else 4

/-- `formatBytes(bytes)` with the default `decimals = 2`.  `sizes[i]` is
`undefined` in JS beyond the GB entry, which stringifies to `"undefined"`. -/
def formatBytes (bytes : Nat) : String :=
  if bytes = 0 then "0 Bytes"
  else
    let i := sizeExp bytes
    let p := 1024 ^ i
    let scaled := (bytes * 100 + p / 2) / p
    renderHundredths scaled ++ " " ++ (["Bytes", "KB", "MB", "GB"].getD i "undefined")

/-! ## `validateVideo` (`cloudinary.js` lines 21-40) -/

/-- Error string pushed at line 25. -/
def emptyFileMsg : String := "Video file is empty"

/-- Error string pushed at line 29 (template literal, associated to the right
here to keep the leading literal exposed; string append is associative). -/
def sizeLimitMsg (size : Nat) : String :=
  "Video size (" ++ (formatBytes size ++ (") exceeds limit (" ++ (formatBytes MAX_FILE_SIZE ++ ")")))

/-- Error string pushed at line 33. -/
def invalidTypeMsg : String := "Invalid file type. Expected video file"

/-- The `{ valid, errors }` object returned by `validateVideo`. -/
structure ValidationResult where
  valid : Bool
  errors : List String
deriving DecidableEq, Repr

/-- JS `String.prototype.startsWith`: the pattern is a prefix of the string. -/
def strStartsWith (s pat : String) : Bool :=
  pat.data.isPrefixOf s.data

/-- The three checks of `validateVideo` for a present (non-null) blob.  For a
present blob the line-24 condition `!blob || blob.size === 0` reduces to
`blob.size === 0`; the pushes accumulate in source order. -/
def validateVideoChecks (b : Blob) : ValidationResult :=
  let errors : List String := []
  let errors := if b.size = 0 then errors ++ [emptyFileMsg] else errors
  let errors := if MAX_FILE_SIZE < b.size then errors ++ [sizeLimitMsg b.size] else errors
  let errors := if strStartsWith b.type "video/" = false then errors ++ [invalidTypeMsg] else errors
  { valid := errors.isEmpty, errors := errors }

/-- A thrown JS runtime error. -/
inductive JsError
  | typeError
deriving DecidableEq, Repr

/-- `validateVideo(blob)` over its public interface, where the argument may be
absent (`null`/`undefined`).  For an absent blob the line-24 guard
short-circuits (and pushes the empty-file message), but line 28 evaluates
`blob.size` on the absent value and throws a `TypeError`, so no result object
is returned. -/
def validateVideo (blob : Option Blob) : Except JsError ValidationResult :=
  match blob with
  | none => Except.error JsError.typeError
  | some b => Except.ok (validateVideoChecks b)

/-- `errors.join('. ')` (`cloudinary.js` line 54): JS `Array.prototype.join`
with separator `". "`. -/
def joinMsgs : List String → String
  | [] => ""
  | [m] => m
  | m :: m' :: ms => m ++ (". " ++ joinMsgs (m' :: ms))

/-! ## `isRetryableError` (`cloudinary.js` lines 145-157) -/

/-- JS `String.prototype.toLowerCase` (ASCII letters; the messages involved
are ASCII). -/
def toLowerString (s : String) : String :=
  String.mk (s.data.map Char.toLower)

/-- JS `String.prototype.includes`: `pat` occurs as a contiguous substring. -/
def strIncludes (s pat : String) : Bool :=
  (List.range (s.data.length + 1)).any (fun i => pat.data.isPrefixOf (s.data.drop i))

/-- The `retryableMessages` array (`cloudinary.js` lines 146-153), verbatim:
note the last two entries are upper-case and are matched against a lower-cased
message. -/
def retryableMessages : List String :=
  ["network error", "failed to fetch", "timeout", "connection", "ECONNRESET", "ETIMEDOUT"]

/-- `isRetryableError(error)`: lower-case the message and test whether any
entry of `retryableMessages` occurs in it as a substring. -/
def isRetryableError (message : String) : Bool :=
  retryableMessages.any (fun msg => strIncludes (toLowerString message) msg)

/-! ## The upload pipeline (`cloudinary.js` lines 45-95)

The network transport `uploadWithProgress` (lines 100-140) settles each
attempt in exactly one of four ways: the `load` listener resolves with a
`{ ok, status, json }` view of the XHR response, and the `error` / `timeout` /
`abort` listeners reject with the three fixed messages.  The environment maps
the attempt number (the `retryCount` of the invocation that issued it) to its
outcome.  Response-body parsing is folded into the response record:
`errorMessage` is the value of `errorData.error?.message` with `none` covering
both an unparsable body (the `.catch(() => ({}))`) and a missing field. -/

/-- One settled XHR response as seen by `uploadToCloudinary`. -/
structure HttpResponse where
  status : Nat
  errorMessage : Option String
  secureUrl : String
  publicId : String
deriving DecidableEq, Repr

/-- Outcome of one `uploadWithProgress` call. -/
inductive TransportResult
  | resp (r : HttpResponse)
  | netError
  | timeoutErr
  | abortErr
deriving DecidableEq, Repr

/-- Message of the line-48 configuration error. -/
def configError : String :=
  "Cloudinary credentials not configured. Please check .env file"

/-- Message of the line-59 offline error. -/
def offlineError : String :=
  "No internet connection. Video saved locally and will be uploaded when online"

/-- Rejection message of the XHR `error` listener (line 126). -/
def netErrorMsg : String := "Network error during upload"

/-- Rejection message of the XHR `timeout` listener (line 130). -/
def timeoutErrorMsg : String := "Upload timeout. Please try again with a shorter video"

/-- Rejection message of the XHR `abort` listener (line 134). -/
def abortErrorMsg : String := "Upload cancelled"

/-- The generic fallback of line 74: `Upload failed with status N`. -/
def statusErrorMsg (status : Nat) : String :=
  "Upload failed with status " ++ toString status

/-- Line 74: `errorData.error?.message || generic`.  A missing, unparsable or
empty-string (JS-falsy) message falls back to the generic status message. -/
def responseFailureMsg (r : HttpResponse) : String :=
  match r.errorMessage with
  | some m => if m = "" then statusErrorMsg r.status else m
  | none => statusErrorMsg r.status

/-- The `{ success: true, url, publicId, ... }` object of lines 78-83. -/
structure UploadSuccess where
  url : String
  publicId : String
deriving DecidableEq, Repr

/-- Outcome of one transfer attempt (the body of the `try` at lines 69-84):
a 2xx response succeeds; a non-2xx response throws the parsed/fallback
message; a transport rejection throws its fixed message. -/
def attemptOutcome (t : TransportResult) : Except String UploadSuccess :=
  match t with
  | .resp r =>
      if 200 ≤ r.status ∧ r.status < 300 then
        .ok { url := r.secureUrl, publicId := r.publicId }
      else
        .error (responseFailureMsg r)
  | .netError => .error netErrorMsg
  | .timeoutErr => .error timeoutErrorMsg
  | .abortErr => .error abortErrorMsg

/-- Observable steps of the pipeline and of the app flow, recorded in source
order as a trace. -/
inductive Ev
  | checkConfig
  | validate
  | checkOnline
  | transfer (attempt : Nat)
  | sleep (ms : Nat)
  | timerStop
  | save (id : String)
  | load
  | tracksStop
  | updateStore (id : String)
deriving DecidableEq, Repr

/-- JS falsiness of an env string (`!CLOUDINARY_CLOUD_NAME`): absent
(`undefined`) or the empty string. -/
def jsFalsy : Option String → Bool
  | none => true
  | some s => s = ""

/-- The fixed environment of one upload invocation chain: the two
`import.meta.env` credentials (lines 8-9), the `navigator.onLine` reachability
signal read by `isOnline()` (lines 14-16), and the transport. -/
structure UploadEnv where
  cloudName : Option String
  uploadPreset : Option String
  online : Bool
  transport : Nat → TransportResult

/-- `isOnline()` (`cloudinary.js` lines 14-16). -/
def isOnline (env : UploadEnv) : Bool :=
  env.online

/-- `uploadToCloudinary(blob, onProgress, retryCount)` (lines 45-95).  In
source order: the configuration check (lines 47-49), `validateVideo` (lines
52-55, the blob is present at every call site so
`validateVideo (some blob) = .ok (validateVideoChecks blob)`), the `isOnline`
check (lines 58-60), then one transport attempt inside `try`.  In the `catch`,
if `retryCount < MAX_RETRIES` and the error is retryable, it sleeps
`RETRY_DELAY * (retryCount + 1)` and re-invokes itself with
`retryCount + 1`; otherwise the error is rethrown.  The trace records each
step; the progress callback is not modelled (no claim mentions it). -/
def uploadToCloudinary (env : UploadEnv) (blob : Blob) (retryCount : Nat) :
    List Ev × Except String UploadSuccess :=
  if jsFalsy env.cloudName || jsFalsy env.uploadPreset then
    ([Ev.checkConfig], .error configError)
  else
    let validation := validateVideoChecks blob
    if validation.valid = false then
      ([Ev.checkConfig, Ev.validate], .error (joinMsgs validation.errors))
    else if isOnline env = false then
      ([Ev.checkConfig, Ev.validate, Ev.checkOnline], .error offlineError)
    else
      match attemptOutcome (env.transport retryCount) with
      | .ok s =>
          ([Ev.checkConfig, Ev.validate, Ev.checkOnline, Ev.transfer retryCount], .ok s)
      | .error msg =>
          if h : retryCount < MAX_RETRIES ∧ isRetryableError msg = true then
            let rest := uploadToCloudinary env blob (retryCount + 1)
            ([Ev.checkConfig, Ev.validate, Ev.checkOnline, Ev.transfer retryCount,
                Ev.sleep (RETRY_DELAY * (retryCount + 1))] ++ rest.1,
              rest.2)
          else
            ([Ev.checkConfig, Ev.validate, Ev.checkOnline, Ev.transfer retryCount], .error msg)
termination_by MAX_RETRIES + 1 - retryCount
decreasing_by
  obtain ⟨h1, -⟩ := h
  omega

/-- The trace prefix of one attempt that reaches the transfer step. -/
def preEvs (attempt : Nat) : List Ev :=
  [Ev.checkConfig, Ev.validate, Ev.checkOnline, Ev.transfer attempt]

/-- Recognize transfer events. -/
def isTransferEv : Ev → Bool
  | .transfer _ => true
  | _ => false

/-- Number of transport invocations recorded in a trace. -/
def transfers (tr : List Ev) : Nat :=
  (tr.filter isTransferEv).length

/-! ## The app flow (`App.jsx`) -/

/-- `new Blob(chunksRef.current, { type: 'video/webm' })` (`App.jsx` line 91):
the chunk bytes concatenated, with the fixed declared type. -/
def combineChunks (chunks : List Blob) : Blob :=
  { size := (chunks.map (fun c => c.size)).sum, type := "video/webm" }

/-- The `mediaRecorder.onstop` handler (`App.jsx` lines 83-106), as a pure
transformer over the store that emits its steps in source order: stop the
timer, combine the chunks, `await saveVideo(blob)`, `await loadVideos()`,
then release the camera/microphone tracks and clear the preview.  The handler
is `async`; `putSucceeds` is whether the durable write resolves.  When it
rejects, the `await` at line 94 rethrows and nothing after it runs: the result
store is `none` (the handler rejected; the underlying store is unchanged) and
the trace stops at the attempted save. -/
def onstop (st : Store) (now : Nat) (chunks : List Blob) (putSucceeds : Bool) :
    Option Store × List Ev :=
  let blob := combineChunks chunks
  if putSucceeds then
    (some (saveVideo st blob now).1,
      [Ev.timerStop, Ev.save (genId now), Ev.load, Ev.tracksStop])
  else
    (none, [Ev.timerStop, Ev.save (genId now)])

/-- How one `uploadVideo(id)` invocation settles, as observed by the user. -/
inductive UploadOutcome
  | offlineAlert
  | failed (msg : String)
  | succeeded (url : String)
deriving DecidableEq, Repr

/-- `uploadVideo(id)` (`App.jsx` lines 137-204): bail out with an alert when
offline (lines 139-142); `getVideos()` and look the clip up (lines 149-150);
throw `Video not found in local storage` when absent (lines 152-154); call
`uploadToCloudinary` on the clip's blob; on success `updateVideo(id, true)`
and reload the listing (lines 164-167); any thrown error is caught and
reported (lines 173-192). -/
def uploadVideo (env : UploadEnv) (st : Store) (id : String) :
    Store × List Ev × UploadOutcome :=
  if isOnline env = false then
    (st, [], UploadOutcome.offlineAlert)
  else
    match dbGet st id with
    | none => (st, [Ev.load], UploadOutcome.failed "Video not found in local storage")
    | some video =>
        let run := uploadToCloudinary env video.blob 0
        match run.2 with
        | .ok s =>
            (updateVideo st id true,
              Ev.load :: run.1 ++ [Ev.updateStore id, Ev.load],
              UploadOutcome.succeeded s.url)
        | .error m => (st, Ev.load :: run.1, UploadOutcome.failed m)

/-! ## Store operation sequences (for the `uploaded`-monotonicity claim)

The store operations as the app invokes them: `saveVideo` from finalization,
`getVideos` from listing, `deleteVideo` from user deletion, and
`updateVideo(id, true)` — the only call site of `updateVideo`
(`App.jsx` line 166) passes `true`. -/

inductive StoreOp
  | save (blob : Blob) (now : Nat)
  | getAll
  | delete (id : String)
  | markUploaded (id : String)
deriving DecidableEq, Repr

/-- Apply one store operation. -/
def applyOp (st : Store) : StoreOp → Store
  | .save blob now => (saveVideo st blob now).1
  | .getAll => st
  | .delete id => deleteVideo st id
  | .markUploaded id => updateVideo st id true

/-- Apply a sequence of store operations in order. -/
def applyOps (st : Store) (ops : List StoreOp) : Store :=
  ops.foldl applyOp st

/-- One operation is clock-consistent in a store: a `save` happens at a
`Date.now()` tick whose generated id is not already a key of the store (two
finalizations never share a millisecond); the other operations are
unconstrained. -/
def freshOp (st : Store) : StoreOp → Bool
  | StoreOp.save _ now => (dbGet st (genId now)).isNone
  | _ => true

/-- Clock consistency of a whole run. -/
def freshSaves : Store → List StoreOp → Bool
  | _, [] => true
  | st, op :: rest => freshOp st op && freshSaves (applyOp st op) rest

/-! ## Concrete sample data -/

/-- A small well-formed recording payload. -/
def sampleBlob : Blob := { size := 5, type := "video/webm" }

/-- A transport that always answers a successful 2xx response. -/
def okTransport : Nat → TransportResult :=
  fun _ => TransportResult.resp
    { status := 200, errorMessage := none, secureUrl := "https://example/video", publicId := "clip" }

/-- Configured, online environment with a succeeding transport. -/
def envOnline : UploadEnv :=
  { cloudName := some "demo", uploadPreset := some "unsigned", online := true,
    transport := okTransport }

/-- Same environment with the reachability signal reporting offline. -/
def envOffline : UploadEnv :=
  { envOnline with online := false }

/-- Environment whose every transfer attempt fails at the transport level. -/
def envAlwaysNet : UploadEnv :=
  { envOnline with transport := fun _ => TransportResult.netError }

/-- Environment whose first attempt fails at the transport level and whose
later attempts succeed. -/
def envRetryOnce : UploadEnv :=
  { envOnline with transport := fun n => if n = 0 then TransportResult.netError else okTransport n }

/-- A 400 response carrying the host error message `bad preset`. -/
def badPresetResp : HttpResponse :=
  { status := 400, errorMessage := some "bad preset", secureUrl := "", publicId := "" }

/-- Environment whose transport always answers a 400 response carrying the
host error message `bad preset`. -/
def envBadPreset : UploadEnv :=
  { envOnline with transport := fun _ => TransportResult.resp badPresetResp }

/-- A stored clip used by the frame-condition witnesses. -/
def storedVideo : Video :=
  { id := "video-1", blob := sampleBlob, createdAt := 1, uploaded := false }

/-- A second stored clip (already uploaded) used by witnesses. -/
def sampleVideo : Video :=
  { id := "video-2", blob := sampleBlob, createdAt := 2, uploaded := true }

/-- A store with one uploaded clip, used by the monotonicity witness. -/
def stMono : Store :=
  [{ id := "video-1", blob := sampleBlob, createdAt := 1, uploaded := true }]

/-- An operation run exercising every operation kind except deletion of the
tracked clip. -/
def opsMono : List StoreOp :=
  [StoreOp.markUploaded "video-1", StoreOp.getAll, StoreOp.save sampleBlob 7,
    StoreOp.delete "video-9"]

/-! ## Lemmas about the Local Store -/

lemma dbGet_id_eq {st : Store} {k : String} {v : Video} (h : dbGet st k = some v) :
    v.id = k := by
  induction st with
  | nil => simp [dbGet] at h
  | cons a t ih =>
    by_cases ha : (a.id == k) = true
    · rw [dbGet, if_pos ha] at h
      cases h
      exact eq_of_beq ha
    · rw [dbGet, if_neg ha] at h
      exact ih h

lemma dbGet_dbPut_self (st : Store) (v : Video) : dbGet (dbPut st v) v.id = some v := by
  induction st with
  | nil => simp [dbGet, dbPut]
  | cons a t ih =>
    by_cases ha : (a.id == v.id) = true
    · rw [dbPut, if_pos ha, dbGet, if_pos (by simp)]
    · rw [dbPut, if_neg ha, dbGet, if_neg ha]
      exact ih

lemma dbGet_dbPut_other (st : Store) (v : Video) (k : String) (hk : k ≠ v.id) :
    dbGet (dbPut st v) k = dbGet st k := by
  have hvk : (v.id == k) = false := beq_eq_false_iff_ne.mpr (fun e => hk e.symm)
  induction st with
  | nil => simp [dbGet, dbPut, hvk]
  | cons a t ih =>
    by_cases ha : (a.id == v.id) = true
    · rw [dbPut, if_pos ha, dbGet, if_neg (by simp [hvk]), dbGet,
        if_neg (by rw [eq_of_beq ha]; simp [hvk])]
    · rw [dbPut, if_neg ha, dbGet, dbGet]
      by_cases hak : (a.id == k) = true
      · rw [if_pos hak, if_pos hak]
      · rw [if_neg hak, if_neg hak]
        exact ih

lemma dbGet_deleteVideo_self (st : Store) (id : String) :
    dbGet (deleteVideo st id) id = none := by
  induction st with
  | nil => rfl
  | cons a t ih =>
    by_cases ha : (a.id == id) = true
    · rw [deleteVideo, if_pos ha]
      exact ih
    · rw [deleteVideo, if_neg ha, dbGet, if_neg ha]
      exact ih

lemma dbGet_deleteVideo_other (st : Store) (id k : String) (hk : k ≠ id) :
    dbGet (deleteVideo st id) k = dbGet st k := by
  induction st with
  | nil => rfl
  | cons a t ih =>
    by_cases ha : (a.id == id) = true
    · rw [deleteVideo, if_pos ha, dbGet,
        if_neg (by rw [eq_of_beq ha]; exact by simp [beq_eq_false_iff_ne.mpr (fun e => hk e.symm)])]
      exact ih
    · rw [deleteVideo, if_neg ha, dbGet, dbGet]
      by_cases hak : (a.id == k) = true
      · rw [if_pos hak, if_pos hak]
      · rw [if_neg hak, if_neg hak]
        exact ih

lemma updateVideo_absent (st : Store) (id : String) (b : Bool)
    (h : dbGet st id = none) : updateVideo st id b = st := by
  unfold updateVideo
  rw [h]

lemma updateVideo_present (st : Store) (id : String) (b : Bool) (v : Video)
    (h : dbGet st id = some v) :
    updateVideo st id b = dbPut st { v with uploaded := b } := by
  unfold updateVideo
  rw [h]

/-! ## Distinctness of the user-facing messages -/

lemma take_data_append (p rest : String) (k : Nat) (hk : k ≤ p.data.length) :
    (p ++ rest).data.take k = p.data.take k := by
  have hd : (p ++ rest).data = p.data ++ rest.data := rfl
  rw [hd]
  exact List.take_append_of_le_length hk

lemma ne_of_take_data {s t : String} (k : Nat) (h : s.data.take k ≠ t.data.take k) :
    s ≠ t := by
  intro he
  exact h (by rw [he])

lemma sizeLimitMsg_ne_emptyFileMsg (n : Nat) : sizeLimitMsg n ≠ emptyFileMsg := by
  apply ne_of_take_data 7
  rw [sizeLimitMsg, take_data_append _ _ 7 (by decide)]
  decide

lemma sizeLimitMsg_ne_invalidTypeMsg (n : Nat) : sizeLimitMsg n ≠ invalidTypeMsg := by
  apply ne_of_take_data 1
  rw [sizeLimitMsg, take_data_append _ _ 1 (by decide)]
  decide

lemma emptyFileMsg_ne_invalidTypeMsg : emptyFileMsg ≠ invalidTypeMsg := by
  decide

lemma emptyFileMsg_ne_sizeLimitMsg (n : Nat) : emptyFileMsg ≠ sizeLimitMsg n :=
  (sizeLimitMsg_ne_emptyFileMsg n).symm

lemma invalidTypeMsg_ne_sizeLimitMsg (n : Nat) : invalidTypeMsg ≠ sizeLimitMsg n :=
  (sizeLimitMsg_ne_invalidTypeMsg n).symm

lemma invalidTypeMsg_ne_emptyFileMsg : invalidTypeMsg ≠ emptyFileMsg :=
  emptyFileMsg_ne_invalidTypeMsg.symm

lemma joinMsgs_take (m : String) (ms : List String) (k : Nat) (hk : k ≤ m.data.length) :
    (joinMsgs (m :: ms)).data.take k = m.data.take k := by
  cases ms with
  | nil => rfl
  | cons m' rest =>
    rw [joinMsgs]
    exact take_data_append _ _ k hk

/-- Normal form of the error list of `validateVideoChecks`. -/
lemma validation_errors_cases (b : Blob) :
    (validateVideoChecks b).errors =
      (if b.size = 0 then [emptyFileMsg] else []) ++
      ((if MAX_FILE_SIZE < b.size then [sizeLimitMsg b.size] else []) ++
       (if strStartsWith b.type "video/" = false then [invalidTypeMsg] else [])) := by
  unfold validateVideoChecks
  by_cases h1 : b.size = 0 <;> by_cases h2 : MAX_FILE_SIZE < b.size <;>
    by_cases h3 : strStartsWith b.type "video/" = false <;> simp [h1, h2, h3]

lemma validation_valid_iff (b : Blob) :
    (validateVideoChecks b).valid = true ↔
      (¬ b.size = 0 ∧ b.size ≤ MAX_FILE_SIZE ∧ strStartsWith b.type "video/" = true) := by
  unfold validateVideoChecks
  by_cases h1 : b.size = 0 <;> by_cases h2 : MAX_FILE_SIZE < b.size <;>
    by_cases h3 : strStartsWith b.type "video/" = false <;>
    simp [h1, h2, h3, Nat.not_lt.mp, Nat.le_of_not_lt] <;> omega

/-- A failing validation's joined message starts with `V` or `I`. -/
lemma validationMsg_first_char (b : Blob) (h : (validateVideoChecks b).valid = false) :
    (joinMsgs (validateVideoChecks b).errors).data.take 1 = ['V'] ∨
    (joinMsgs (validateVideoChecks b).errors).data.take 1 = ['I'] := by
  have hv : ¬ (¬ b.size = 0 ∧ b.size ≤ MAX_FILE_SIZE ∧ strStartsWith b.type "video/" = true) := by
    intro hc
    rw [(validation_valid_iff b).mpr hc] at h
    simp at h
  rw [validation_errors_cases b]
  by_cases h1 : b.size = 0 <;> by_cases h2 : MAX_FILE_SIZE < b.size <;>
    by_cases h3 : strStartsWith b.type "video/" = false <;>
    simp only [h1, h2, h3, if_pos, if_neg, if_true, if_false, List.append_nil,
      List.nil_append, List.cons_append, List.append_assoc]
  case pos =>
    left
    rw [joinMsgs_take _ _ 1 (by decide)]
    decide
  all_goals first
  | (left
     rw [joinMsgs_take _ _ 1 (by decide)]
     decide)
  | (left
     rw [joinMsgs_take _ _ 1 (by rw [sizeLimitMsg]; simp)]
     rw [sizeLimitMsg, take_data_append _ _ 1 (by decide)]
     decide)
  | (right
     rw [joinMsgs_take _ _ 1 (by decide)]
     decide)
  | (exfalso
     apply hv
     refine ⟨h1, Nat.le_of_not_lt h2, ?_⟩
     cases hs : strStartsWith b.type "video/" with
     | false => exact absurd hs h3
     | true => rfl)

lemma configError_first_char : configError.data.take 1 = ['C'] := by decide

lemma offlineError_first_char : offlineError.data.take 1 = ['N'] := by decide

/-! ## Unfolding lemmas for `uploadToCloudinary` -/

lemma validateVideo_some (b : Blob) :
    validateVideo (some b) = Except.ok (validateVideoChecks b) := rfl

lemma run_config_fail (env : UploadEnv) (b : Blob) (n : Nat)
    (hc : (jsFalsy env.cloudName || jsFalsy env.uploadPreset) = true) :
    uploadToCloudinary env b n = ([Ev.checkConfig], .error configError) := by
  rw [uploadToCloudinary, if_pos hc]

lemma run_validation_fail (env : UploadEnv) (b : Blob) (n : Nat)
    (hc : jsFalsy env.cloudName = false) (hp : jsFalsy env.uploadPreset = false)
    (hv : (validateVideoChecks b).valid = false) :
    uploadToCloudinary env b n =
      ([Ev.checkConfig, Ev.validate], .error (joinMsgs (validateVideoChecks b).errors)) := by
  rw [uploadToCloudinary, if_neg (by simp [hc, hp])]
  simp only [hv, if_pos]

lemma run_offline (env : UploadEnv) (b : Blob) (n : Nat)
    (hc : jsFalsy env.cloudName = false) (hp : jsFalsy env.uploadPreset = false)
    (hv : (validateVideoChecks b).valid = true) (ho : isOnline env = false) :
    uploadToCloudinary env b n =
      ([Ev.checkConfig, Ev.validate, Ev.checkOnline], .error offlineError) := by
  rw [uploadToCloudinary, if_neg (by simp [hc, hp])]
  simp only [hv, ho, if_pos, if_neg]
  simp

lemma run_ok (env : UploadEnv) (b : Blob) (n : Nat)
    (hc : jsFalsy env.cloudName = false) (hp : jsFalsy env.uploadPreset = false)
    (hv : (validateVideoChecks b).valid = true) (ho : isOnline env = true)
    (s : UploadSuccess) (hA : attemptOutcome (env.transport n) = .ok s) :
    uploadToCloudinary env b n = (preEvs n, .ok s) := by
  rw [uploadToCloudinary, if_neg (by simp [hc, hp])]
  simp only [hv, ho, preEvs]
  simp only [Bool.true_eq_false, if_false, hA]

lemma run_retry (env : UploadEnv) (b : Blob) (n : Nat)
    (hc : jsFalsy env.cloudName = false) (hp : jsFalsy env.uploadPreset = false)
    (hv : (validateVideoChecks b).valid = true) (ho : isOnline env = true)
    (msg : String) (hA : attemptOutcome (env.transport n) = .error msg)
    (hn : n < MAX_RETRIES) (hr : isRetryableError msg = true) :
    uploadToCloudinary env b n =
      (preEvs n ++ Ev.sleep (RETRY_DELAY * (n + 1)) :: (uploadToCloudinary env b (n + 1)).1,
        (uploadToCloudinary env b (n + 1)).2) := by
  rw [uploadToCloudinary, if_neg (by simp [hc, hp])]
  simp only [hv, ho, preEvs]
  simp only [Bool.true_eq_false, if_false, hA]
  rw [dif_pos ⟨hn, hr⟩]
  simp

lemma run_stop (env : UploadEnv) (b : Blob) (n : Nat)
    (hc : jsFalsy env.cloudName = false) (hp : jsFalsy env.uploadPreset = false)
    (hv : (validateVideoChecks b).valid = true) (ho : isOnline env = true)
    (msg : String) (hA : attemptOutcome (env.transport n) = .error msg)
    (hx : ¬ (n < MAX_RETRIES ∧ isRetryableError msg = true)) :
    uploadToCloudinary env b n = (preEvs n, .error msg) := by
  rw [uploadToCloudinary, if_neg (by simp [hc, hp])]
  simp only [hv, ho, preEvs]
  simp only [Bool.true_eq_false, if_false, hA]
  rw [dif_neg hx]

/-! ## Counting transport invocations -/

lemma transfers_append (a b : List Ev) : transfers (a ++ b) = transfers a + transfers b := by
  simp [transfers, List.filter_append]

lemma transfers_preEvs (n : Nat) : transfers (preEvs n) = 1 := by
  simp [transfers, preEvs, isTransferEv]

lemma transfers_sleep_cons (d : Nat) (tr : List Ev) :
    transfers (Ev.sleep d :: tr) = transfers tr := by
  simp [transfers, isTransferEv]

lemma transfers_run_le (env : UploadEnv) (b : Blob) :
    ∀ (fuel n : Nat), n ≤ MAX_RETRIES → MAX_RETRIES - n < fuel →
      transfers (uploadToCloudinary env b n).1 ≤ MAX_RETRIES + 1 - n := by
  intro fuel
  induction fuel with
  | zero => intro n hn hf; omega
  | succ f ih =>
    intro n hn hf
    by_cases hcb : (jsFalsy env.cloudName || jsFalsy env.uploadPreset) = true
    · rw [run_config_fail env b n hcb]
      simp [transfers, isTransferEv]
    · have hc : jsFalsy env.cloudName = false := by
        rcases Bool.or_eq_false_iff.mp (Bool.eq_false_iff.mpr hcb) with ⟨h1, h2⟩
        exact h1
      have hp : jsFalsy env.uploadPreset = false := by
        rcases Bool.or_eq_false_iff.mp (Bool.eq_false_iff.mpr hcb) with ⟨h1, h2⟩
        exact h2
      by_cases hv : (validateVideoChecks b).valid = true
      · by_cases ho : isOnline env = true
        · cases hA : attemptOutcome (env.transport n) with
          | ok s =>
            rw [run_ok env b n hc hp hv ho s hA, transfers_preEvs]
            omega
          | error msg =>
            by_cases hx : n < MAX_RETRIES ∧ isRetryableError msg = true
            · rw [run_retry env b n hc hp hv ho msg hA hx.1 hx.2]
              rw [transfers_append, transfers_sleep_cons, transfers_preEvs]
              have hrec := ih (n + 1) hx.1 (by omega)
              omega
            · rw [run_stop env b n hc hp hv ho msg hA hx, transfers_preEvs]
              omega
        · rw [run_offline env b n hc hp hv (Bool.eq_false_iff.mpr ho)]
          simp [transfers, isTransferEv]
      · rw [run_validation_fail env b n hc hp (Bool.eq_false_iff.mpr hv)]
        simp [transfers, isTransferEv]

/-- With every attempt failing and the first three retryable, the pipeline
re-runs all three precondition checks before each of the four transfers,
sleeping 2s, 4s, 6s between them, and surfaces the final attempt's error. -/
lemma run_all_fail (env : UploadEnv) (b : Blob)
    (hc : jsFalsy env.cloudName = false) (hp : jsFalsy env.uploadPreset = false)
    (hv : (validateVideoChecks b).valid = true) (ho : isOnline env = true)
    (msg : Nat → String)
    (hA : ∀ n, n ≤ MAX_RETRIES → attemptOutcome (env.transport n) = .error (msg n))
    (hr : ∀ n, n < MAX_RETRIES → isRetryableError (msg n) = true) :
    uploadToCloudinary env b 0 =
      (preEvs 0 ++ Ev.sleep 2000 ::
        (preEvs 1 ++ Ev.sleep 4000 ::
          (preEvs 2 ++ Ev.sleep 6000 :: preEvs 3)), .error (msg 3)) := by
  have h3 : uploadToCloudinary env b 3 = (preEvs 3, .error (msg 3)) :=
    run_stop env b 3 hc hp hv ho (msg 3) (hA 3 (by decide)) (by simp [MAX_RETRIES])
  have h2 : uploadToCloudinary env b 2 =
      (preEvs 2 ++ Ev.sleep 6000 :: preEvs 3, .error (msg 3)) := by
    rw [run_retry env b 2 hc hp hv ho (msg 2) (hA 2 (by decide)) (by decide)
      (hr 2 (by decide)), h3]
    simp [RETRY_DELAY]
  have h1 : uploadToCloudinary env b 1 =
      (preEvs 1 ++ Ev.sleep 4000 :: (preEvs 2 ++ Ev.sleep 6000 :: preEvs 3), .error (msg 3)) := by
    rw [run_retry env b 1 hc hp hv ho (msg 1) (hA 1 (by decide)) (by decide)
      (hr 1 (by decide)), h2]
    simp [RETRY_DELAY]
  rw [run_retry env b 0 hc hp hv ho (msg 0) (hA 0 (by decide)) (by decide)
    (hr 0 (by decide)), h1]
  simp [RETRY_DELAY]

lemma netErr_retryable : isRetryableError netErrorMsg = true := by decide

/-! ## Claim theorems -/

/-- C3: validation of a present payload fails exactly when the payload is
empty, or larger than 100 MiB, or its declared type does not start with
`video/`; every violation that holds is reported, each with its own distinct
message, and nothing else is reported. -/
theorem C3_validation_rules (b : Blob) :
    ((validateVideoChecks b).valid = true ↔
      (b.size ≠ 0 ∧ b.size ≤ MAX_FILE_SIZE ∧ strStartsWith b.type "video/" = true))
    ∧ (emptyFileMsg ∈ (validateVideoChecks b).errors ↔ b.size = 0)
    ∧ (sizeLimitMsg b.size ∈ (validateVideoChecks b).errors ↔ MAX_FILE_SIZE < b.size)
    ∧ (invalidTypeMsg ∈ (validateVideoChecks b).errors ↔ strStartsWith b.type "video/" = false)
    ∧ (∀ m ∈ (validateVideoChecks b).errors,
        m = emptyFileMsg ∨ m = sizeLimitMsg b.size ∨ m = invalidTypeMsg)
    ∧ (emptyFileMsg ≠ sizeLimitMsg b.size ∧ emptyFileMsg ≠ invalidTypeMsg ∧
        sizeLimitMsg b.size ≠ invalidTypeMsg) := by
  have hc := validation_errors_cases b
  refine ⟨validation_valid_iff b, ?_, ?_, ?_, ?_,
    (sizeLimitMsg_ne_emptyFileMsg b.size).symm, emptyFileMsg_ne_invalidTypeMsg,
    sizeLimitMsg_ne_invalidTypeMsg b.size⟩
  · rw [hc]
    by_cases h1 : b.size = 0 <;> by_cases h2 : MAX_FILE_SIZE < b.size <;>
      by_cases h3 : strStartsWith b.type "video/" = false <;>
      simp [h1, h2, h3, emptyFileMsg_ne_sizeLimitMsg, emptyFileMsg_ne_invalidTypeMsg]
  · rw [hc]
    by_cases h1 : b.size = 0 <;> by_cases h2 : MAX_FILE_SIZE < b.size <;>
      by_cases h3 : strStartsWith b.type "video/" = false <;>
      simp [h1, h2, h3, sizeLimitMsg_ne_emptyFileMsg, sizeLimitMsg_ne_invalidTypeMsg]
  · rw [hc]
    by_cases h1 : b.size = 0 <;> by_cases h2 : MAX_FILE_SIZE < b.size <;>
      by_cases h3 : strStartsWith b.type "video/" = false <;>
      simp [h1, h2, h3, invalidTypeMsg_ne_emptyFileMsg, invalidTypeMsg_ne_sizeLimitMsg]
  · rw [hc]
    intro m hm
    by_cases h1 : b.size = 0 <;> by_cases h2 : MAX_FILE_SIZE < b.size <;>
      by_cases h3 : strStartsWith b.type "video/" = false <;>
      simp [h1, h2, h3] at hm <;> tauto

/-- C3 witness: at a concrete empty, non-video payload the empty-file
violation is reported. -/
theorem C3_witness :
    emptyFileMsg ∈ (validateVideoChecks { size := 0, type := "text/plain" }).errors :=
  (C3_validation_rules { size := 0, type := "text/plain" }).2.1.mpr rfl

/-- C10: `validateVideo` is not total on an absent payload — the `!blob`
guard notwithstanding, evaluating `blob.size` at the size check throws a
`TypeError` instead of returning a `{valid, errors}` result. -/
theorem C10_validateVideo_absent_throws :
    validateVideo none = Except.error JsError.typeError := rfl

/-- C7: `setUploaded` on an id absent from the store is a silent no-op, and
after `deleteVideo id` the call `updateVideo id true` does not recreate the
clip. -/
theorem C7_setUploaded_absent_noop (st : Store) (id : String) (b : Bool)
    (h : dbGet st id = none) :
    updateVideo st id b = st
    ∧ updateVideo (deleteVideo st id) id true = deleteVideo st id
    ∧ dbGet (updateVideo (deleteVideo st id) id true) id = none := by
  refine ⟨updateVideo_absent st id b h, ?_, ?_⟩
  · exact updateVideo_absent _ _ _ (dbGet_deleteVideo_self st id)
  · rw [updateVideo_absent _ _ _ (dbGet_deleteVideo_self st id)]
    exact dbGet_deleteVideo_self st id

/-- C7 witness at a concrete store not containing the id. -/
theorem C7_witness :
    updateVideo [sampleVideo] "video-1" true = [sampleVideo]
    ∧ updateVideo (deleteVideo [sampleVideo] "video-1") "video-1" true =
        deleteVideo [sampleVideo] "video-1"
    ∧ dbGet (updateVideo (deleteVideo [sampleVideo] "video-1") "video-1" true) "video-1" = none :=
  C7_setUploaded_absent_noop [sampleVideo] "video-1" true (by decide)

/-- C8: `setUploaded` on a present id changes only the `uploaded` field of
that record — its `id`, `createdAt` and payload are unchanged — and leaves
every other record of the store unchanged. -/
theorem C8_setUploaded_frame (st : Store) (id : String) (b : Bool) (v : Video)
    (h : dbGet st id = some v) :
    (∃ v', dbGet (updateVideo st id b) id = some v' ∧
      v'.id = v.id ∧ v'.blob = v.blob ∧ v'.createdAt = v.createdAt ∧ v'.uploaded = b)
    ∧ ∀ k, k ≠ id → dbGet (updateVideo st id b) k = dbGet st k := by
  have hid : v.id = id := dbGet_id_eq h
  have hput := updateVideo_present st id b v h
  constructor
  · refine ⟨{ v with uploaded := b }, ?_, rfl, rfl, rfl, rfl⟩
    rw [hput, ← hid]
    exact dbGet_dbPut_self st { v with uploaded := b }
  · intro k hk
    rw [hput]
    refine dbGet_dbPut_other st _ k ?_
    show k ≠ v.id
    rw [hid]
    exact hk

/-- C8 witness at a concrete two-record store. -/
theorem C8_witness :
    (∃ v', dbGet (updateVideo [storedVideo, sampleVideo] "video-1" true) "video-1" = some v' ∧
      v'.id = storedVideo.id ∧ v'.blob = storedVideo.blob ∧
      v'.createdAt = storedVideo.createdAt ∧ v'.uploaded = true)
    ∧ ∀ k, k ≠ "video-1" →
        dbGet (updateVideo [storedVideo, sampleVideo] "video-1" true) k =
          dbGet [storedVideo, sampleVideo] k :=
  C8_setUploaded_frame [storedVideo, sampleVideo] "video-1" true storedVideo (by decide)

/-- C4: the initial invocation checks configuration, then validation, then
connectivity, in this order; each failing check stops the run with its own
distinct error before any later step runs, and in particular an offline
signal fails the run with the offline error before the transport is ever
invoked and without consuming any retry. -/
theorem C4_precondition_order (env : UploadEnv) (b : Blob) :
    ((jsFalsy env.cloudName || jsFalsy env.uploadPreset) = true →
      uploadToCloudinary env b 0 = ([Ev.checkConfig], .error configError))
    ∧ (jsFalsy env.cloudName = false → jsFalsy env.uploadPreset = false →
        (validateVideoChecks b).valid = false →
        uploadToCloudinary env b 0 =
          ([Ev.checkConfig, Ev.validate], .error (joinMsgs (validateVideoChecks b).errors)))
    ∧ (jsFalsy env.cloudName = false → jsFalsy env.uploadPreset = false →
        (validateVideoChecks b).valid = true → isOnline env = false →
        uploadToCloudinary env b 0 =
          ([Ev.checkConfig, Ev.validate, Ev.checkOnline], .error offlineError)
        ∧ (∀ n, Ev.transfer n ∉ (uploadToCloudinary env b 0).1)
        ∧ (∀ d, Ev.sleep d ∉ (uploadToCloudinary env b 0).1))
    ∧ configError ≠ offlineError
    ∧ ((validateVideoChecks b).valid = false →
        joinMsgs (validateVideoChecks b).errors ≠ configError ∧
        joinMsgs (validateVideoChecks b).errors ≠ offlineError) := by
  refine ⟨?_, ?_, ?_, by decide, ?_⟩
  · intro hcb
    exact run_config_fail env b 0 hcb
  · intro hc hp hv
    exact run_validation_fail env b 0 hc hp hv
  · intro hc hp hv ho
    have heq := run_offline env b 0 hc hp hv ho
    refine ⟨heq, ?_, ?_⟩
    · intro n
      rw [heq]
      simp
    · intro d
      rw [heq]
      simp
  · intro hv
    constructor
    · apply ne_of_take_data 1
      rcases validationMsg_first_char b hv with h | h <;>
        rw [h, configError_first_char] <;> decide
    · apply ne_of_take_data 1
      rcases validationMsg_first_char b hv with h | h <;>
        rw [h, offlineError_first_char] <;> decide

/-- C4 witness: a configured environment with a valid payload but an offline
reachability signal fails with the offline error and no transfer event. -/
theorem C4_witness :
    uploadToCloudinary envOffline sampleBlob 0 =
      ([Ev.checkConfig, Ev.validate, Ev.checkOnline], .error offlineError) :=
  ((C4_precondition_order envOffline sampleBlob).2.2.1
    (by decide) (by decide) (by decide) (by decide)).1

/-- C2: from a passing precondition phase, the pipeline performs at most
`MAX_RETRIES + 1 = 4` transport attempts; a first attempt whose error does
not match the transient set terminates immediately (one transfer, no sleep);
and when every attempt fails with transient errors the budget is exhausted,
the run performs exactly four transfers and surfaces the last attempt's
error. -/
theorem C2_retry_policy (env : UploadEnv) (b : Blob)
    (hc : jsFalsy env.cloudName = false) (hp : jsFalsy env.uploadPreset = false)
    (hv : (validateVideoChecks b).valid = true) (ho : isOnline env = true) :
    transfers (uploadToCloudinary env b 0).1 ≤ MAX_RETRIES + 1
    ∧ (∀ msg, attemptOutcome (env.transport 0) = .error msg →
        isRetryableError msg = false →
        uploadToCloudinary env b 0 = (preEvs 0, .error msg))
    ∧ (∀ msg : Nat → String,
        (∀ n, n ≤ MAX_RETRIES → attemptOutcome (env.transport n) = .error (msg n)) →
        (∀ n, n < MAX_RETRIES → isRetryableError (msg n) = true) →
        (uploadToCloudinary env b 0).2 = .error (msg 3)
        ∧ transfers (uploadToCloudinary env b 0).1 = MAX_RETRIES + 1) := by
  refine ⟨?_, ?_, ?_⟩
  · have := transfers_run_le env b 4 0 (by decide) (by decide)
    simpa using this
  · intro msg hA hr
    exact run_stop env b 0 hc hp hv ho msg hA (by simp [hr])
  · intro msg hA hr
    have heq := run_all_fail env b hc hp hv ho msg hA hr
    rw [heq]
    refine ⟨rfl, ?_⟩
    simp [transfers_append, transfers_sleep_cons, transfers_preEvs, MAX_RETRIES]

/-- C2 witness: with every attempt failing at the transport level, the run
surfaces the last network error after exactly four transfers. -/
theorem C2_witness :
    (uploadToCloudinary envAlwaysNet sampleBlob 0).2 = .error netErrorMsg
    ∧ transfers (uploadToCloudinary envAlwaysNet sampleBlob 0).1 = MAX_RETRIES + 1 :=
  (C2_retry_policy envAlwaysNet sampleBlob (by decide) (by decide) (by decide)
    (by decide)).2.2 (fun _ => netErrorMsg) (fun n _ => rfl) (fun n _ => netErr_retryable)

/-- C6: a non-2xx response fails the attempt with the host-supplied message
when the body carries a non-empty one and with the generic
`Upload failed with status N` message otherwise; such a failure is retried
only when its message matches the transient set, and in particular a 400
response with body message `bad preset` fails the whole upload immediately
with zero retries and a message containing `bad preset`. -/
theorem C6_non2xx_handling (env : UploadEnv) (b : Blob)
    (hc : jsFalsy env.cloudName = false) (hp : jsFalsy env.uploadPreset = false)
    (hv : (validateVideoChecks b).valid = true) (ho : isOnline env = true) :
    (∀ (r : HttpResponse) (m : String), r.errorMessage = some m → m ≠ "" →
        responseFailureMsg r = m)
    ∧ (∀ r : HttpResponse, r.errorMessage = none →
        responseFailureMsg r = statusErrorMsg r.status)
    ∧ (∀ r : HttpResponse, env.transport 0 = TransportResult.resp r →
        (r.status < 200 ∨ 300 ≤ r.status) →
        isRetryableError (responseFailureMsg r) = false →
        uploadToCloudinary env b 0 = (preEvs 0, .error (responseFailureMsg r)))
    ∧ (env.transport 0 = TransportResult.resp badPresetResp →
        (uploadToCloudinary env b 0).2 = .error "bad preset"
        ∧ transfers (uploadToCloudinary env b 0).1 = 1
        ∧ strIncludes "bad preset" "bad preset" = true) := by
  have hkey : ∀ (r : HttpResponse), env.transport 0 = TransportResult.resp r →
      (r.status < 200 ∨ 300 ≤ r.status) →
      isRetryableError (responseFailureMsg r) = false →
      uploadToCloudinary env b 0 = (preEvs 0, .error (responseFailureMsg r)) := by
    intro r htr hst hr
    have hA : attemptOutcome (env.transport 0) = .error (responseFailureMsg r) := by
      simp only [htr, attemptOutcome]
      rw [if_neg (by omega)]
    exact run_stop env b 0 hc hp hv ho _ hA (by simp [hr])
  refine ⟨?_, ?_, hkey, ?_⟩
  · intro r m hm hne
    simp only [responseFailureMsg, hm]
    rw [if_neg hne]
  · intro r hm
    simp only [responseFailureMsg, hm]
  · intro htr
    have hmsg : responseFailureMsg badPresetResp = "bad preset" := rfl
    have := hkey badPresetResp htr (by right; decide) (by rw [hmsg]; decide)
    rw [this, hmsg]
    exact ⟨rfl, transfers_preEvs 0, by decide⟩

/-- C6 witness: the concrete always-400 `bad preset` environment fails with
that message after a single transfer. -/
theorem C6_witness :
    (uploadToCloudinary envBadPreset sampleBlob 0).2 = .error "bad preset"
    ∧ transfers (uploadToCloudinary envBadPreset sampleBlob 0).1 = 1
    ∧ strIncludes "bad preset" "bad preset" = true :=
  (C6_non2xx_handling envBadPreset sampleBlob (by decide) (by decide) (by decide)
    (by decide)).2.2.2 rfl

/-- C5 counterexample: with a configured, online environment whose first
attempt fails with a retryable network error and whose second attempt
succeeds, the run's trace re-records the configuration check and the
validation step after the backoff sleep — the retry does not resume from the
transfer step alone. -/
theorem C5_counterexample :
    (uploadToCloudinary envRetryOnce sampleBlob 0).1 =
      [Ev.checkConfig, Ev.validate, Ev.checkOnline, Ev.transfer 0, Ev.sleep 2000,
        Ev.checkConfig, Ev.validate, Ev.checkOnline, Ev.transfer 1]
    ∧ (uploadToCloudinary envRetryOnce sampleBlob 0).1.count Ev.checkConfig = 2
    ∧ (uploadToCloudinary envRetryOnce sampleBlob 0).1.count Ev.validate = 2 := by
  have h1 : uploadToCloudinary envRetryOnce sampleBlob 1 =
      (preEvs 1, .ok { url := "https://example/video", publicId := "clip" }) :=
    run_ok envRetryOnce sampleBlob 1 (by decide) (by decide) (by decide) (by decide)
      _ rfl
  have h0 := run_retry envRetryOnce sampleBlob 0 (by decide) (by decide) (by decide)
    (by decide) netErrorMsg rfl (by decide) netErr_retryable
  have ht : (uploadToCloudinary envRetryOnce sampleBlob 0).1 =
      [Ev.checkConfig, Ev.validate, Ev.checkOnline, Ev.transfer 0, Ev.sleep 2000,
        Ev.checkConfig, Ev.validate, Ev.checkOnline, Ev.transfer 1] := by
    rw [h0, h1]
    simp [preEvs, RETRY_DELAY]
  refine ⟨ht, ?_, ?_⟩ <;> rw [ht] <;> decide

/-- C5 as amended: each retry of the pipeline waits `RETRY_DELAY × n`
(2 s, 4 s, 6 s) before re-invoking the whole routine from the top, so the
configuration check, payload validation and connectivity check are all
re-executed before each retransfer (with unchanged outcomes, the
configuration and payload being fixed for the run). -/
theorem C5_amended_backoff (env : UploadEnv) (b : Blob)
    (hc : jsFalsy env.cloudName = false) (hp : jsFalsy env.uploadPreset = false)
    (hv : (validateVideoChecks b).valid = true) (ho : isOnline env = true)
    (msg : Nat → String)
    (hA : ∀ n, n ≤ MAX_RETRIES → attemptOutcome (env.transport n) = .error (msg n))
    (hr : ∀ n, n < MAX_RETRIES → isRetryableError (msg n) = true) :
    (uploadToCloudinary env b 0).1 =
      preEvs 0 ++ Ev.sleep 2000 ::
        (preEvs 1 ++ Ev.sleep 4000 :: (preEvs 2 ++ Ev.sleep 6000 :: preEvs 3))
    ∧ (∀ n, Ev.checkConfig ∈ preEvs n ∧ Ev.validate ∈ preEvs n ∧
        Ev.checkOnline ∈ preEvs n) := by
  refine ⟨?_, ?_⟩
  · rw [run_all_fail env b hc hp hv ho msg hA hr]
  · intro n
    refine ⟨?_, ?_, ?_⟩ <;> simp [preEvs]

/-- C5 witness: the concrete always-failing environment exhibits the full
four-attempt trace with 2 s, 4 s, 6 s sleeps. -/
theorem C5_witness :
    (uploadToCloudinary envAlwaysNet sampleBlob 0).1 =
      preEvs 0 ++ Ev.sleep 2000 ::
        (preEvs 1 ++ Ev.sleep 4000 :: (preEvs 2 ++ Ev.sleep 6000 :: preEvs 3)) :=
  (C5_amended_backoff envAlwaysNet sampleBlob (by decide) (by decide) (by decide)
    (by decide) (fun _ => netErrorMsg) (fun n _ => rfl) (fun n _ => netErr_retryable)).1

/-! ## Monotonicity of the `uploaded` flag -/

lemma uploaded_preserved_step (st : Store) (op : StoreOp) (id : String) (v : Video)
    (hv : dbGet st id = some v) (hu : v.uploaded = true)
    (hfresh : freshOp st op = true)
    (hnd : op ≠ StoreOp.delete id) :
    ∃ v', dbGet (applyOp st op) id = some v' ∧ v'.uploaded = true := by
  cases op with
  | save blob now =>
    have hg : dbGet st (genId now) = none := by
      have hg1 : (dbGet st (genId now)).isNone = true := hfresh
      exact Option.isNone_iff_eq_none.mp hg1
    have hne : id ≠ genId now := by
      intro e
      rw [e, hg] at hv
      cases hv
    refine ⟨v, ?_, hu⟩
    show dbGet (dbPut st _) id = some v
    rw [dbGet_dbPut_other st _ id hne]
    exact hv
  | getAll => exact ⟨v, hv, hu⟩
  | delete k =>
    have hk : id ≠ k := by
      intro e
      exact hnd (by rw [e])
    refine ⟨v, ?_, hu⟩
    show dbGet (deleteVideo st k) id = some v
    rw [dbGet_deleteVideo_other st k id hk]
    exact hv
  | markUploaded k =>
    by_cases hk : k = id
    · subst hk
      refine ⟨{ v with uploaded := true }, ?_, rfl⟩
      show dbGet (updateVideo st k true) k = _
      rw [updateVideo_present st k true v hv, ← dbGet_id_eq hv]
      exact dbGet_dbPut_self st { v with uploaded := true }
    · cases hw : dbGet st k with
      | none =>
        refine ⟨v, ?_, hu⟩
        show dbGet (updateVideo st k true) id = some v
        rw [updateVideo_absent st k true hw]
        exact hv
      | some w =>
        refine ⟨v, ?_, hu⟩
        show dbGet (updateVideo st k true) id = some v
        rw [updateVideo_present st k true w hw]
        rw [dbGet_dbPut_other st _ id ?_]
        · exact hv
        · show id ≠ w.id
          rw [dbGet_id_eq hw]
          exact fun e => hk e.symm

lemma uploaded_preserved_run (id : String) :
    ∀ (ops : List StoreOp) (st : Store) (v : Video),
      freshSaves st ops = true → StoreOp.delete id ∉ ops →
      dbGet st id = some v → v.uploaded = true →
      ∃ v', dbGet (applyOps st ops) id = some v' ∧ v'.uploaded = true := by
  intro ops
  induction ops with
  | nil =>
    intro st v _ _ hv hu
    exact ⟨v, hv, hu⟩
  | cons op rest ih =>
    intro st v hfresh hnd hv hu
    have hsplit : (freshOp st op && freshSaves (applyOp st op) rest) = true := hfresh
    rw [Bool.and_eq_true] at hsplit
    obtain ⟨hfo, hfr⟩ := hsplit
    have hnd1 : op ≠ StoreOp.delete id := by
      intro e
      exact hnd (by rw [e]; exact List.mem_cons_self _ _)
    have hndr : StoreOp.delete id ∉ rest := fun hm => hnd (List.mem_cons_of_mem _ hm)
    obtain ⟨v1, hv1, hu1⟩ := uploaded_preserved_step st op id v hv hu hfo hnd1
    show ∃ v', dbGet (applyOps (applyOp st op) rest) id = some v' ∧ v'.uploaded = true
    exact ih (applyOp st op) v1 hfr hndr hv1 hu1

/-- C9: a clip's `uploaded` flag is `false` at creation, and along any run of
the store operations as the app invokes them (`saveVideo` at fresh clock
ticks, `getVideos`, `deleteVideo` of other clips, `updateVideo _ true`) an
existing clip whose flag is `true` never reverts to `false`. -/
theorem C9_uploaded_monotonic (st : Store) (ops : List StoreOp) (id : String) (v : Video)
    (hfresh : freshSaves st ops = true)
    (hnd : StoreOp.delete id ∉ ops)
    (hv : dbGet st id = some v) (hu : v.uploaded = true) :
    (∀ (st₀ : Store) (blob : Blob) (now : Nat),
        dbGet (saveVideo st₀ blob now).1 (genId now) =
          some { id := genId now, blob := blob, createdAt := now, uploaded := false })
    ∧ ∃ v', dbGet (applyOps st ops) id = some v' ∧ v'.uploaded = true := by
  constructor
  · intro st₀ blob now
    exact dbGet_dbPut_self st₀ { id := genId now, blob := blob, createdAt := now, uploaded := false }
  · exact uploaded_preserved_run id ops st v hfresh hnd hv hu

/-- C9 witness: a concrete run over a store holding one uploaded clip,
exercising every operation kind except deletion of that clip. -/
theorem C9_witness :
    ∃ v', dbGet (applyOps stMono opsMono) "video-1" = some v' ∧ v'.uploaded = true :=
  (C9_uploaded_monotonic stMono opsMono "video-1"
    { id := "video-1", blob := sampleBlob, createdAt := 1, uploaded := true }
    (by decide) (by decide) (by decide) rfl).2

/-- C1: on a successful finalization the clip is durably in the store with
`uploaded = false`, the persisted write strictly precedes the
camera/microphone teardown in the handler's trace, no network step occurs
during finalization, a failed durable write prevents the teardown step from
being reached, and an upload invocation can never reach the transport for a
clip that is not in the store. -/
theorem C1_durable_write_ordering (st : Store) (now : Nat) (chunks : List Blob) :
    (∃ st', (onstop st now chunks true).1 = some st' ∧
        dbGet st' (genId now) =
          some { id := genId now, blob := combineChunks chunks, createdAt := now,
                 uploaded := false })
    ∧ (∃ l₁ l₂, (onstop st now chunks true).2 = l₁ ++ Ev.save (genId now) :: l₂ ∧
        Ev.tracksStop ∉ l₁ ∧ Ev.tracksStop ∈ l₂)
    ∧ (∀ n, Ev.transfer n ∉ (onstop st now chunks true).2)
    ∧ (Ev.save (genId now) ∈ (onstop st now chunks false).2
        ∧ Ev.tracksStop ∉ (onstop st now chunks false).2)
    ∧ (∀ (env : UploadEnv) (k : String), dbGet st k = none →
        ∀ n, Ev.transfer n ∉ (uploadVideo env st k).2.1) := by
  refine ⟨?_, ?_, ?_, ?_, ?_⟩
  · refine ⟨(saveVideo st (combineChunks chunks) now).1, rfl, ?_⟩
    exact dbGet_dbPut_self st _
  · refine ⟨[Ev.timerStop], [Ev.load, Ev.tracksStop], rfl, ?_, ?_⟩ <;> simp
  · intro n
    show Ev.transfer n ∉ [Ev.timerStop, Ev.save (genId now), Ev.load, Ev.tracksStop]
    simp
  · constructor
    · show Ev.save (genId now) ∈ [Ev.timerStop, Ev.save (genId now)]
      simp
    · show Ev.tracksStop ∉ [Ev.timerStop, Ev.save (genId now)]
      simp
  · intro env k hk n
    by_cases hon : isOnline env = false
    · show Ev.transfer n ∉ (uploadVideo env st k).2.1
      rw [uploadVideo, if_pos hon]
      simp
    · show Ev.transfer n ∉ (uploadVideo env st k).2.1
      rw [uploadVideo, if_neg hon, hk]
      simp

/-- C1 witness: for an id absent from the store, no transport invocation is
recorded by the upload flow. -/
theorem C1_witness :
    ∀ n, Ev.transfer n ∉ (uploadVideo envOnline [] "missing").2.1 :=
  (C1_durable_write_ordering [] 0 []).2.2.2.2 envOnline "missing" rfl

end VideoVault
